import Mathlib

/-!
Shallow embedding of the authentication and session-trust subsystem of the
vidacure-server repository (src/services/auth-service.ts,
src/controllers/auth-controllers.ts, src/middleware/auth-middleware.ts),
together with theorems settling the specification claims about it.

Conventions of the embedding:
* timestamps are natural numbers (milliseconds where the source uses
  `Date.now()` / `new Date()`, seconds where the source divides by 1000);
* the jsonwebtoken library is modelled symbolically: `jwt.sign` produces a
  `Token.signed payload secret` value and `jwt.verify` checks the secret and
  the `exp` claim, raising (as an `Except` error, caught by the caller) on
  malformed input, wrong secret, or expiry — mirroring the library's
  documented behaviour;
* the keyed HMAC used for SSN hashing, the broker token decoder, the broker
  code exchange, and random-value generation are oracles (function fields or
  explicit parameters), since their outputs are opaque to the control flow
  being verified;
* the two Mongoose collections are lists of records, `findOne` is `List.find?`
  on the hash predicate, and `save` of a fetched document updates the first
  matching entry in place; a trace of store operations is returned alongside
  the result so that claims about which store is read or written are statable.
-/

namespace Vidacure

/-- JavaScript truthiness of an optional string: `undefined` and `""` are falsy. -/
def truthy : Option String → Bool
  | none => false
  | some s => !s.isEmpty

/-- JavaScript `a || b` where `a` is an optional string and `b` a string:
returns `a`'s value when it is present and non-empty, else `b`. -/
def jsOr (a : Option String) (b : String) : String :=
  match a with
  | none => b
  | some s => if s.isEmpty then b else s

/-- JavaScript string interpolation of a possibly-undefined value:
an absent value prints as the literal text "undefined". -/
def jsInterp : Option String → String
  | none => "undefined"
  | some s => s

/-! ## Session token codec (src/services/auth-service.ts) -/

/-- Payload of the application JWT (`AppUserClaims` in src/types/generic-types.ts). -/
structure AppUserClaims where
  userId : String
  role : String
  iat : Nat
  exp : Nat
deriving DecidableEq

/-- Symbolic JWT value: `jwt.sign` yields a signed token carrying its payload
and the signing secret; every other string is a malformed token. -/
inductive Token where
  | signed (payload : AppUserClaims) (secret : String)
  | malformed (raw : String)
deriving DecidableEq

/-- Failure modes of `jwt.verify` (TokenExpiredError / JsonWebTokenError). -/
inductive JwtError where
  | expired
  | invalidSignature
  | malformedToken
deriving DecidableEq

/-- Model of jsonwebtoken's `jwt.verify(token, secret)`: fails on a malformed
token, on a secret mismatch, and when the clock has reached the `exp` claim;
otherwise returns the decoded payload. -/
def jwtVerify (secret : String) (nowSec : Nat) : Token → Except JwtError AppUserClaims
  | .malformed _ => .error .malformedToken
  | .signed p s =>
    if s ≠ secret then .error .invalidSignature
    else if p.exp ≤ nowSec then .error .expired
    else .ok p

/-- Environment-sourced configuration of auth-service.ts: the JWT signing
secret, the session TTL in milliseconds, and the keyed HMAC-SHA256 used by
`hashSSN` (abstracted as a function of the SSN, the key being baked in). -/
structure AuthEnv where
  JWT_SECRET : String
  TTL : Nat
  SSN_HMAC : String → String

/-- Account record as stored in the patient / doctor collections.  `_id` is
assigned by the store at creation (`none` before the first save).  The
role-specific extension fields (weight history, questionnaire, ...) are owned
by out-of-scope collaborators and carry no information the auth core reads,
so they are omitted.  `lastLogin` is a millisecond timestamp. -/
structure StoredUser where
  _id : Option String
  ssnHash : String
  name : String
  given_name : String
  family_name : String
  role : String
  lastLogin : Nat
deriving DecidableEq

/-- Embedding of `createAppJWT` (auth-service.ts): signs
`{userId: user._id?.toString() || 'temp-id', role, iat: floor(now/1000),
exp: iat + floor(TTL/1000)}` with `JWT_SECRET`. -/
def createAppJWT (env : AuthEnv) (nowMs : Nat) (user : StoredUser) : Token :=
  Token.signed
    { userId := user._id.getD "temp-id"
      role := user.role
      iat := nowMs / 1000
      exp := nowMs / 1000 + env.TTL / 1000 }
    env.JWT_SECRET

/-- Embedding of `verifyAppJWT` (auth-service.ts): `jwt.verify` inside a
try/catch that converts every failure to `null`. -/
def verifyAppJWT (env : AuthEnv) (nowSec : Nat) (token : Token) : Option AppUserClaims :=
  (jwtVerify env.JWT_SECRET nowSec token).toOption

/-! ## Identity resolution (src/services/auth-service.ts) -/

/-- Embedding of `isValidSwedishSSN`: the regex test `/^\d{12}$/`. -/
def isValidSwedishSSN (ssn : String) : Bool :=
  ssn.length == 12 && ssn.data.all Char.isDigit

/-- Broker-issued identity claims (`CriiptoUserClaims` in generic-types.ts);
every field is optional. -/
structure CriiptoUserClaims where
  sub : Option String := none
  name : Option String := none
  given_name : Option String := none
  family_name : Option String := none
  ssn : Option String := none
deriving DecidableEq

/-- The two role-partitioned Mongoose collections. -/
structure DB where
  patients : List StoredUser
  doctors : List StoredUser
deriving DecidableEq

/-- One store operation, recorded in order of execution. -/
inductive DbOp where
  | patientFindOne (ssnHash : String)
  | patientSave (u : StoredUser)
  | doctorFindOne (ssnHash : String)
  | doctorSave (u : StoredUser)
deriving DecidableEq

/-- Mongoose `save()` of a fetched document: the first entry satisfying the
lookup predicate is replaced by its updated version, the rest are untouched. -/
def updateFirstWhere (p : StoredUser → Bool) (f : StoredUser → StoredUser) :
    List StoredUser → List StoredUser
  | [] => []
  | u :: rest => if p u then f u :: rest else u :: updateFirstWhere p f rest

/-- First-match lookup across both collections (patients probed first),
as the sequential `findOne` probes of `findOrCreateUser` perform it. -/
def lookupByHash (db : DB) (h : String) : Option StoredUser :=
  match db.patients.find? (fun u => u.ssnHash == h) with
  | some u => some u
  | none => db.doctors.find? (fun u => u.ssnHash == h)

/-- Total number of accounts across both collections. -/
def userCount (db : DB) : Nat :=
  db.patients.length + db.doctors.length

/-- Successful result of the identity resolver. -/
structure ResolveOk where
  user : StoredUser
  isNewUser : Bool
deriving DecidableEq

/-- Display name of a newly created patient:
`name || `${given_name} ${family_name}`.trim() || 'Unknown User'`. -/
def newUserName (tok : CriiptoUserClaims) : String :=
  jsOr tok.name
    (jsOr (some ((jsInterp tok.given_name ++ " " ++ jsInterp tok.family_name).trim))
      "Unknown User")

/-- The patient document constructed by `findOrCreateUser` when no account
matches the hash; `freshId` is the object id the store assigns on save. -/
def newPatientDoc (ssnHash : String) (now : Nat) (freshId : String)
    (tok : CriiptoUserClaims) : StoredUser :=
  { _id := some freshId
    ssnHash := ssnHash
    name := newUserName tok
    given_name := tok.given_name.getD ""
    family_name := tok.family_name.getD ""
    role := "patient"
    lastLogin := now }

/-- Embedding of `findOrCreateUser` (auth-service.ts lines 47-121): validate
the SSN, compute its hash, probe the patient collection, then the doctor
collection, updating `lastLogin` on a hit; otherwise create a new patient.
Returns the result (`Except` models the thrown error), the resulting store
contents, and the trace of store operations performed. -/
def findOrCreateUser (env : AuthEnv) (now : Nat) (freshId : String)
    (db : DB) (criiptoToken : CriiptoUserClaims) :
    Except String ResolveOk × DB × List DbOp :=
  match criiptoToken.ssn with
  | none => (.error "Invalid or missing SSN from IdP", db, [])
  | some ssn =>
    if ssn.isEmpty || !isValidSwedishSSN ssn then
      (.error "Invalid or missing SSN from IdP", db, [])
    else
      let ssnHash := env.SSN_HMAC ssn
      match db.patients.find? (fun u => u.ssnHash == ssnHash) with
      | some existingPatient =>
        let updated := { existingPatient with lastLogin := now }
        (.ok ⟨updated, false⟩,
         { db with
             patients := updateFirstWhere (fun u => u.ssnHash == ssnHash)
               (fun u => { u with lastLogin := now }) db.patients },
         [.patientFindOne ssnHash, .patientSave updated])
      | none =>
        match db.doctors.find? (fun u => u.ssnHash == ssnHash) with
        | some existingDoctor =>
          let updated := { existingDoctor with lastLogin := now }
          (.ok ⟨updated, false⟩,
           { db with
               doctors := updateFirstWhere (fun u => u.ssnHash == ssnHash)
                 (fun u => { u with lastLogin := now }) db.doctors },
           [.patientFindOne ssnHash, .doctorFindOne ssnHash, .doctorSave updated])
        | none =>
          let newPatient := newPatientDoc ssnHash now freshId criiptoToken
          (.ok ⟨newPatient, true⟩,
           { db with patients := db.patients ++ [newPatient] },
           [.patientFindOne ssnHash, .doctorFindOne ssnHash, .patientSave newPatient])

/-! ## Client-type detection (src/middleware/auth-middleware.ts) -/

/-- Closed classification of a request's client, the return type of
`browserDetails`. -/
inductive ClientType where
  | web
  | mobile
  | app
deriving DecidableEq

/-- Whether the character list `s` starts with the character list `pat`. -/
def charsStartWith : List Char → List Char → Bool
  | _, [] => true
  | [], _ :: _ => false
  | c :: cs, p :: ps => c == p && charsStartWith cs ps

/-- Whether `pat` occurs as a contiguous sublist of `s`. -/
def charsContain : List Char → List Char → Bool
  | [], pat => pat.isEmpty
  | s@(_ :: cs), pat => charsStartWith s pat || charsContain cs pat

/-- Case-insensitive substring test, as a JS regex of alternated literal
words with the `i` flag performs it. -/
def containsIgnoreCase (hay pat : String) : Bool :=
  charsContain (hay.data.map Char.toLower) (pat.data.map Char.toLower)

/-- The alternatives of the mobile-device user-agent regex
`/Android|webOS|iPhone|iPad|iPod|BlackBerry|IEMobile|Opera Mini/i`. -/
def mobileAgentMarkers : List String :=
  ["Android", "webOS", "iPhone", "iPad", "iPod", "BlackBerry", "IEMobile", "Opera Mini"]

/-- Embedding of the `isMobile` regex test of `browserDetails`. -/
def isMobileUserAgent (ua : String) : Bool :=
  mobileAgentMarkers.any (fun t => containsIgnoreCase ua t)

/-- Request metadata consumed by the auth middleware and controllers.
Header and cookie values are optional strings (`none` = absent). -/
structure Request where
  x_client : Option String := none
  user_agent : Option String := none
  authorization : Option String := none
  x_csrf_token : Option String := none
  cookie_csrf_token : Option String := none
  host : Option String := none
  x_forwarded_proto : Option String := none
deriving DecidableEq

/-- Embedding of `browserDetails` (auth-middleware.ts lines 6-37): trust an
explicit `x-client` header naming one of the three known values, else
classify by the user-agent mobile regex, defaulting to web. -/
def browserDetails (req : Request) : ClientType :=
  if req.x_client = some "web" then .web
  else if req.x_client = some "mobile" then .mobile
  else if req.x_client = some "app" then .app
  else if isMobileUserAgent (req.user_agent.getD "") then .mobile
  else .web

/-- Outcome of running an Express middleware: the response it sent, if any,
and whether it invoked `next()` (handing the request to the next handler). -/
structure MiddlewareResult where
  status : Option Nat
  errorBody : Option String
  nextCalled : Bool
deriving DecidableEq

/-- Embedding of `requireCSRF` (auth-middleware.ts lines 113-140):
app-classified requests pass through; a missing (falsy) `x-csrf-token`
header is answered 403 with an early return; a header differing from the
`csrf_token` cookie is answered 401 — but that branch lacks a `return`
statement in the source, so control falls through to the trailing `next()`
call; a matching header falls through to `next()` as well. -/
def requireCSRF (req : Request) : MiddlewareResult :=
  let clientToken := req.x_csrf_token
  let csrf := req.cookie_csrf_token
  let clientType := browserDetails req
  if clientType = .app then
    { status := none, errorBody := none, nextCalled := true }
  else if !truthy clientToken then
    { status := some 403, errorBody := some "Missing CSRF token", nextCalled := false }
  else if clientToken ≠ csrf then
    { status := some 401, errorBody := some "Wrong CSRF token", nextCalled := true }
  else
    { status := none, errorBody := none, nextCalled := true }

/-! ## Login initiation (src/controllers/auth-controllers.ts, initiateLogin) -/

/-- Embedding of `getRedirectUri` (auth-service.ts): derive the callback URL
from the request host when present, else fall back to the configured value. -/
def getRedirectUri (fallback : String) (req : Request) : String :=
  match req.host with
  | some h => req.x_forwarded_proto.getD "http" ++ "://" ++ h ++ "/api/callback"
  | none => fallback

/-- The parameters `buildAuthorizeURL` embeds in the broker authorization URL. -/
structure AuthorizeURL where
  redirect_uri : String
  response_type : String
  scope : String
  state : String
  response_mode : String
  acr_values : String
deriving DecidableEq

/-- The `acr_values` broker-hint switch of `initiateLogin`
(auth-controllers.ts lines 187-200).  The source switch also carries a
default case producing "urn:grn:authn:se:bankid:another-device:qr", which is
unreachable: `browserDetails` only ever returns the three cases below. -/
def acrValuesFor : ClientType → String
  | .web => "urn:grn:authn:se:bankid:same-device"
  | .mobile => "urn:grn:authn:se:bankid:same-device"
  | .app => "urn:grn:authn:se:bankid"

/-- Response of `initiateLogin`: on success a 302 redirect to the broker URL
with the `oauth_state` cookie set to the state nonce; 503 when the broker
configuration is unavailable. -/
structure InitiateLoginResult where
  status : Nat
  oauth_state_cookie : Option String
  redirect : Option AuthorizeURL
deriving DecidableEq

/-- Embedding of `initiateLogin` (auth-controllers.ts lines 182-229).
`state` stands for the value of `generateRandomState()` and `configReady`
for whether `getAppConfig()` succeeds (its failure is caught and answered
503). -/
def initiateLogin (configReady : Bool) (fallbackRedirect : String)
    (state : String) (req : Request) : InitiateLoginResult :=
  if !configReady then
    { status := 503, oauth_state_cookie := none, redirect := none }
  else
    let clientType := browserDetails req
    let acrValues := acrValuesFor clientType
    { status := 302
      oauth_state_cookie := some state
      redirect := some
        { redirect_uri := getRedirectUri fallbackRedirect req
          response_type := "code"
          scope := "openid profile"
          state := state
          response_mode := "query"
          acr_values := acrValues } }

/-! ## Native-app login (src/controllers/auth-controllers.ts, setLogin) -/

/-- The state-nonce validation of `handleCallback`:
`if (!state || state !== storedState)` — fails when the merged `state`
parameter is absent or empty (JS falsy) or differs from the `oauth_state`
cookie value (a missing cookie never equals a present string). -/
def stateCheckFails (state stored : Option String) : Bool :=
  match state with
  | none => true
  | some s => s.isEmpty || stored ≠ some s

/-- Parameters of a callback request: `code`, `state` and `error` merged from
query and body as the source does with `||`, plus the `oauth_state` cookie. -/
structure CallbackRequest where
  code : Option String := none
  state : Option String := none
  error : Option String := none
  cookie_oauth_state : Option String := none
deriving DecidableEq

/-- Oracles consumed by `handleCallback`: configuration availability, the
broker code exchange (authorization code to identity token, or a broker
error), the `jwt.decode` view of the identity token, the value of
`generateCSRFToken()`, the current time, the fresh object id, and the
configured frontend URL. -/
structure CallbackEffects where
  configReady : Bool
  codeExchange : String → Except String String
  decode : String → Option CriiptoUserClaims
  csrfToken : String
  now : Nat
  freshId : String
  frontendUrl : String

/-- Full outcome of `handleCallback`: status, whether the `oauth_state`
cookie was cleared, whether the broker token exchange was performed, the
`app_token` and `csrf_token` cookies set (if any), the redirect target (if
any), the error body (if any), and the resulting store contents. -/
structure CallbackResult where
  status : Nat
  clearedOauthState : Bool := false
  exchangePerformed : Bool := false
  app_token_cookie : Option Token := none
  csrf_token_cookie : Option String := none
  redirect : Option String := none
  errorBody : Option String := none
  db : DB
deriving DecidableEq

/-- Embedding of `handleCallback` (auth-controllers.ts lines 366-501):
503 when configuration is unavailable; 400 (invalid state) when the state
check fails, before anything else happens; past the check the `oauth_state`
cookie is cleared, then: 400 on a broker-reported `error` parameter, 400 on
a missing `code`, 400 on a failed token exchange, 500 when the identity
token does not decode (`jwt.decode` yields null and the resolver throws on
it) or when the resolver throws, and on success a 302 redirect to the
frontend with the `app_token` and `csrf_token` cookies set. -/
def handleCallback (env : AuthEnv) (eff : CallbackEffects) (db : DB)
    (req : CallbackRequest) : CallbackResult :=
  if !eff.configReady then
    { status := 503, errorBody := some "Authentication service not available", db := db }
  else if stateCheckFails req.state req.cookie_oauth_state then
    { status := 400, errorBody := some "Invalid state parameter", db := db }
  else if truthy req.error then
    { status := 400, clearedOauthState := true,
      errorBody := some "Authentication failed", db := db }
  else if !truthy req.code then
    { status := 400, clearedOauthState := true,
      errorBody := some "No authorization code received", db := db }
  else
    match eff.codeExchange (req.code.getD "") with
    | .error _ =>
      { status := 400, clearedOauthState := true, exchangePerformed := true,
        errorBody := some "Token exchange failed", db := db }
    | .ok idToken =>
      match eff.decode idToken with
      | none =>
        { status := 500, clearedOauthState := true, exchangePerformed := true,
          errorBody := some "Authentication failed", db := db }
      | some criiptoToken =>
        match findOrCreateUser env eff.now eff.freshId db criiptoToken with
        | (.error _, db2, _) =>
          { status := 500, clearedOauthState := true, exchangePerformed := true,
            errorBody := some "Authentication failed", db := db2 }
        | (.ok r, db2, _) =>
          { status := 302
            clearedOauthState := true
            exchangePerformed := true
            app_token_cookie := some (createAppJWT env eff.now r.user)
            csrf_token_cookie := some eff.csrfToken
            redirect := some (eff.frontendUrl ++ "?auth=success")
            db := db2 }

/-! ## Helper lemmas -/

/-- Updating the first matching entry preserves the length of the store. -/
theorem length_updateFirstWhere (p : StoredUser → Bool) (f : StoredUser → StoredUser) :
    ∀ l : List StoredUser, (updateFirstWhere p f l).length = l.length
  | [] => rfl
  | u :: rest => by
    by_cases h : p u <;>
      simp [updateFirstWhere, h, length_updateFirstWhere p f rest]

/-- If the update preserves the predicate, looking up after updating the
first match returns the updated version of the original first match. -/
theorem find?_updateFirstWhere (p : StoredUser → Bool) (f : StoredUser → StoredUser)
    (hpf : ∀ u, p u = true → p (f u) = true) :
    ∀ l : List StoredUser, (updateFirstWhere p f l).find? p = (l.find? p).map f
  | [] => rfl
  | u :: rest => by
    by_cases h : p u
    · simp [updateFirstWhere, h, List.find?, hpf u h]
    · simp only [updateFirstWhere, h, if_false, List.find?]
      exact find?_updateFirstWhere p f hpf rest

/-- A string passing the 12-digit SSN test is non-empty. -/
theorem ssn_isEmpty_false (s : String) (h : isValidSwedishSSN s = true) :
    s.isEmpty = false := by
  rw [Bool.eq_false_iff]
  intro hemp
  rw [String.isEmpty_iff] at hemp
  subst hemp
  simp [isValidSwedishSSN] at h

/-! ## Claim theorems -/

/-- C5: for every account and every verification time strictly before the
token's expiry, verifying a session token produced by issuing for that
account returns non-null claims whose subject id equals the account's id
(as a string) and whose role equals the account's role. -/
theorem verify_issue_roundtrip (env : AuthEnv) (nowMs tVerify : Nat) (u : StoredUser)
    (i : String) (hid : u._id = some i)
    (hbefore : tVerify < nowMs / 1000 + env.TTL / 1000) :
    verifyAppJWT env tVerify (createAppJWT env nowMs u) =
      some { userId := i, role := u.role, iat := nowMs / 1000,
             exp := nowMs / 1000 + env.TTL / 1000 } := by
  simp [verifyAppJWT, createAppJWT, jwtVerify, hid, Except.toOption,
    Nat.not_le.mpr hbefore]

/-- Witness for verify_issue_roundtrip: a concrete account with id "u1" and
role "patient", issued at time 0 with a 60-second TTL, verified at second 10. -/
theorem verify_issue_roundtrip_witness :
    verifyAppJWT ⟨"secret", 60000, fun s => s⟩ 10
        (createAppJWT ⟨"secret", 60000, fun s => s⟩ 0
          ⟨some "u1", "h", "Ann", "Ann", "B", "patient", 0⟩) =
      some { userId := "u1", role := "patient", iat := 0, exp := 60 } :=
  verify_issue_roundtrip ⟨"secret", 60000, fun s => s⟩ 0 10
    ⟨some "u1", "h", "Ann", "Ann", "B", "patient", 0⟩ "u1" rfl (by decide)

/-- C6: session-token verification is total over all token values and
returns null rather than raising: for an expired token, a token signed with
a different secret, and a malformed token it returns none, and it returns
claims only when the signature and expiry checks succeed. -/
theorem verifyAppJWT_null_on_failure (env : AuthEnv) (nowSec : Nat) :
    (∀ p : AppUserClaims, p.exp ≤ nowSec →
      verifyAppJWT env nowSec (.signed p env.JWT_SECRET) = none) ∧
    (∀ (p : AppUserClaims) (s : String), s ≠ env.JWT_SECRET →
      verifyAppJWT env nowSec (.signed p s) = none) ∧
    (∀ raw : String, verifyAppJWT env nowSec (.malformed raw) = none) ∧
    (∀ (tok : Token) (c : AppUserClaims), verifyAppJWT env nowSec tok = some c →
      tok = .signed c env.JWT_SECRET ∧ nowSec < c.exp) := by
  refine ⟨?_, ?_, ?_, ?_⟩
  · intro p hp
    simp [verifyAppJWT, jwtVerify, hp, Except.toOption]
  · intro p s hs
    simp [verifyAppJWT, jwtVerify, hs, Except.toOption]
  · intro raw
    rfl
  · intro tok c h
    cases tok with
    | malformed raw =>
      simp [verifyAppJWT, jwtVerify, Except.toOption] at h
    | signed p s =>
      by_cases hs : s = env.JWT_SECRET
      · subst hs
        by_cases hexp : p.exp ≤ nowSec
        · simp [verifyAppJWT, jwtVerify, hexp, Except.toOption] at h
        · simp [verifyAppJWT, jwtVerify, hexp, Except.toOption] at h
          subst h
          exact ⟨rfl, Nat.lt_of_not_le hexp⟩
      · simp [verifyAppJWT, jwtVerify, hs, Except.toOption] at h

/-- Witness for verifyAppJWT_null_on_failure: a token whose expiry is second
5 verified at second 6 (one second past expiry) yields none. -/
theorem verifyAppJWT_null_on_failure_witness :
    verifyAppJWT ⟨"k", 0, fun s => s⟩ 6
      (.signed { userId := "u", role := "patient", iat := 0, exp := 5 } "k") = none :=
  (verifyAppJWT_null_on_failure ⟨"k", 0, fun s => s⟩ 6).1
    { userId := "u", role := "patient", iat := 0, exp := 5 } (by decide)

/-- C7: when the national ID is absent or fails the 12-digit format test,
the identity resolver fails with the invalid-SSN error and performs no store
operation at all: the store is returned unchanged and the operation trace is
empty. -/
theorem resolver_rejects_invalid_ssn (env : AuthEnv) (now : Nat) (freshId : String)
    (db : DB) (tok : CriiptoUserClaims)
    (h : ∀ s, tok.ssn = some s → isValidSwedishSSN s = false) :
    findOrCreateUser env now freshId db tok =
      (.error "Invalid or missing SSN from IdP", db, []) := by
  cases hssn : tok.ssn with
  | none => simp [findOrCreateUser, hssn]
  | some s => simp [findOrCreateUser, hssn, h s hssn]

/-- Witness for resolver_rejects_invalid_ssn: the three-character national
ID "123" is rejected with no store operation. -/
theorem resolver_rejects_invalid_ssn_witness :
    findOrCreateUser ⟨"k", 0, fun s => s⟩ 5 "id1" ⟨[], []⟩ { ssn := some "123" } =
      (.error "Invalid or missing SSN from IdP", ⟨[], []⟩, []) :=
  resolver_rejects_invalid_ssn ⟨"k", 0, fun s => s⟩ 5 "id1" ⟨[], []⟩
    { ssn := some "123" }
    (by intro s hs; injection hs with h; subst h; decide)

/-- C4 (code bug): a browser-classified request whose x-csrf-token header is
present but differs from the csrf_token cookie is answered 401, yet — the
source lacks a return statement in that branch — next() is still called, so
the protected handler is invoked. -/
theorem requireCSRF_mismatch_sends_401_but_calls_next :
    requireCSRF { x_client := some "web", x_csrf_token := some "aaa",
                  cookie_csrf_token := some "bbb" } =
      { status := some 401, errorBody := some "Wrong CSRF token",
        nextCalled := true } := by
  decide

/-- C9 counterexample: a GET /login request with no x-client header and a
desktop user-agent is classified web, and initiateLogin puts the same-device
broker hint in the authorization URL — not the cross-device QR hint the
claim asserts. -/
theorem initiateLogin_desktop_hint_not_qr :
    ((initiateLogin true "https://api.example/callback" "state123"
        { user_agent := some "Mozilla/5.0 (Windows NT 10.0; Win64; x64)" }).redirect.map
      (fun u => u.acr_values)) = some "urn:grn:authn:se:bankid:same-device" ∧
    "urn:grn:authn:se:bankid:same-device" ≠ "urn:grn:authn:se:bankid:another-device:qr" :=
  ⟨by decide, by decide⟩

/-- C9 (amended): a login initiation (with broker configuration available)
responds 302 with the oauth_state cookie set to the state nonce and a
redirect to the broker URL carrying that state, and the broker hint follows
the implemented policy: native-app gets the direct in-app method, while both
mobile-browser and web get the same-device method (the cross-device QR
method appears only in an unreachable default branch of the source switch). -/
theorem initiateLogin_policy (fallback state : String) (req : Request) :
    initiateLogin true fallback state req =
      { status := 302
        oauth_state_cookie := some state
        redirect := some
          { redirect_uri := getRedirectUri fallback req
            response_type := "code"
            scope := "openid profile"
            state := state
            response_mode := "query"
            acr_values := acrValuesFor (browserDetails req) } } ∧
    acrValuesFor .app = "urn:grn:authn:se:bankid" ∧
    acrValuesFor .mobile = "urn:grn:authn:se:bankid:same-device" ∧
    acrValuesFor .web = "urn:grn:authn:se:bankid:same-device" :=
  ⟨rfl, rfl, rfl, rfl⟩

/-- C8: for a valid national ID, if an account with the computed hash exists
in either store the resolver returns that account with its last-login
timestamp set to now and isNewUser = false, the total number of accounts is
unchanged, the updated account is still found under the same hash (so its
ssnHash and role are invariant across repeated calls); if no account
matches, the resolver appends exactly one new patient-role account with
last-login now to the patient store, leaves the doctor store unchanged, and
returns it with isNewUser = true. -/
theorem resolver_existing_updates_new_creates (env : AuthEnv) (now : Nat)
    (freshId : String) (db : DB) (tok : CriiptoUserClaims) (ssn : String)
    (hssn : tok.ssn = some ssn) (hvalid : isValidSwedishSSN ssn = true) :
    (∀ u, lookupByHash db (env.SSN_HMAC ssn) = some u →
      (findOrCreateUser env now freshId db tok).1 =
        .ok ⟨{ u with lastLogin := now }, false⟩ ∧
      userCount (findOrCreateUser env now freshId db tok).2.1 = userCount db ∧
      lookupByHash (findOrCreateUser env now freshId db tok).2.1 (env.SSN_HMAC ssn) =
        some { u with lastLogin := now } ∧
      ({ u with lastLogin := now } : StoredUser).ssnHash = u.ssnHash ∧
      ({ u with lastLogin := now } : StoredUser).role = u.role) ∧
    (lookupByHash db (env.SSN_HMAC ssn) = none →
      ∃ newU : StoredUser,
        (findOrCreateUser env now freshId db tok).1 = .ok ⟨newU, true⟩ ∧
        newU.role = "patient" ∧
        newU.lastLogin = now ∧
        newU.ssnHash = env.SSN_HMAC ssn ∧
        (findOrCreateUser env now freshId db tok).2.1.patients = db.patients ++ [newU] ∧
        (findOrCreateUser env now freshId db tok).2.1.doctors = db.doctors) := by
  have hne := ssn_isEmpty_false ssn hvalid
  have hpf : ∀ u : StoredUser, (u.ssnHash == env.SSN_HMAC ssn) = true →
      (({ u with lastLogin := now } : StoredUser).ssnHash == env.SSN_HMAC ssn) = true :=
    fun u hu => hu
  constructor
  · intro u hu
    cases hp : db.patients.find? (fun v => v.ssnHash == env.SSN_HMAC ssn) with
    | some w =>
      simp only [lookupByHash, hp] at hu
      injection hu with hu
      subst hu
      refine ⟨?_, ?_, ?_, rfl, rfl⟩
      · simp [findOrCreateUser, hssn, hne, hvalid, hp]
      · simp [findOrCreateUser, hssn, hne, hvalid, hp, userCount, length_updateFirstWhere]
      · simp [findOrCreateUser, hssn, hne, hvalid, hp, lookupByHash,
          find?_updateFirstWhere _ _ hpf]
    | none =>
      simp only [lookupByHash, hp] at hu
      refine ⟨?_, ?_, ?_, rfl, rfl⟩
      · simp [findOrCreateUser, hssn, hne, hvalid, hp, hu]
      · simp [findOrCreateUser, hssn, hne, hvalid, hp, hu, userCount,
          length_updateFirstWhere]
      · simp [findOrCreateUser, hssn, hne, hvalid, hp, hu, lookupByHash,
          find?_updateFirstWhere _ _ hpf]
  · intro hnone
    cases hp : db.patients.find? (fun v => v.ssnHash == env.SSN_HMAC ssn) with
    | some w =>
      simp only [lookupByHash, hp] at hnone
      exact Option.noConfusion hnone
    | none =>
      simp only [lookupByHash, hp] at hnone
      refine ⟨newPatientDoc (env.SSN_HMAC ssn) now freshId tok, ?_, rfl, rfl, rfl, ?_, ?_⟩
      · simp [findOrCreateUser, hssn, hne, hvalid, hp, hnone]
      · simp [findOrCreateUser, hssn, hne, hvalid, hp, hnone]
      · simp [findOrCreateUser, hssn, hne, hvalid, hp, hnone]

/-- Witness for resolver_existing_updates_new_creates: a store holding one
patient with the hash of "201001011234"; resolving the same SSN returns that
patient with last-login updated to 99 and creates nothing. -/
theorem resolver_existing_updates_new_creates_witness :
    (findOrCreateUser ⟨"k", 0, fun s => s⟩ 99 "fresh"
        ⟨[⟨some "p1", "201001011234", "Ann", "", "", "patient", 0⟩], []⟩
        { ssn := some "201001011234" }).1 =
      .ok ⟨⟨some "p1", "201001011234", "Ann", "", "", "patient", 99⟩, false⟩ :=
  ((resolver_existing_updates_new_creates ⟨"k", 0, fun s => s⟩ 99 "fresh"
      ⟨[⟨some "p1", "201001011234", "Ann", "", "", "patient", 0⟩], []⟩
      { ssn := some "201001011234" } "201001011234" rfl (by decide)).1
    ⟨some "p1", "201001011234", "Ann", "", "", "patient", 0⟩ (by decide)).1

/-- C10: when an account with the hash exists in the patient store (and also
in the doctor store), the resolver returns the patient with last-login
updated, the doctor store is left untouched, and the operation trace shows
only a patient-store read and write; in general a doctor-store read occurs
only when the patient probe found nothing. -/
theorem resolver_patient_store_first (env : AuthEnv) (now : Nat) (freshId : String)
    (db : DB) (tok : CriiptoUserClaims) (ssn : String) (u : StoredUser)
    (hssn : tok.ssn = some ssn) (hvalid : isValidSwedishSSN ssn = true)
    (hp : db.patients.find? (fun v => v.ssnHash == env.SSN_HMAC ssn) = some u)
    (_hd : (db.doctors.find? (fun v => v.ssnHash == env.SSN_HMAC ssn)).isSome = true) :
    findOrCreateUser env now freshId db tok =
      (.ok ⟨{ u with lastLogin := now }, false⟩,
       { db with
           patients :=
             updateFirstWhere (fun v => v.ssnHash == env.SSN_HMAC ssn)
               (fun v => { v with lastLogin := now }) db.patients },
       [.patientFindOne (env.SSN_HMAC ssn),
        .patientSave { u with lastLogin := now }]) ∧
    (∀ (db2 : DB) (s : String),
      DbOp.doctorFindOne s ∈ (findOrCreateUser env now freshId db2 tok).2.2 →
      db2.patients.find? (fun v => v.ssnHash == env.SSN_HMAC ssn) = none) := by
  have hne := ssn_isEmpty_false ssn hvalid
  constructor
  · simp [findOrCreateUser, hssn, hne, hvalid, hp]
  · intro db2 s hmem
    cases hp2 : db2.patients.find? (fun v => v.ssnHash == env.SSN_HMAC ssn) with
    | none => rfl
    | some w =>
      simp [findOrCreateUser, hssn, hne, hvalid, hp2] at hmem

/-- Witness for resolver_patient_store_first: the same hash present in both
stores; the resolver returns the patient, updates only the patient store,
and its trace holds no doctor-store operation. -/
theorem resolver_patient_store_first_witness :
    findOrCreateUser ⟨"k", 0, fun s => s⟩ 7 "f2"
        ⟨[⟨some "p1", "201001011234", "P", "", "", "patient", 0⟩],
         [⟨some "d1", "201001011234", "D", "", "", "doctor", 0⟩]⟩
        { ssn := some "201001011234" } =
      (.ok ⟨⟨some "p1", "201001011234", "P", "", "", "patient", 7⟩, false⟩,
       ⟨[⟨some "p1", "201001011234", "P", "", "", "patient", 7⟩],
        [⟨some "d1", "201001011234", "D", "", "", "doctor", 0⟩]⟩,
       [.patientFindOne "201001011234",
        .patientSave ⟨some "p1", "201001011234", "P", "", "", "patient", 7⟩]) :=
  (resolver_patient_store_first ⟨"k", 0, fun s => s⟩ 7 "f2"
      ⟨[⟨some "p1", "201001011234", "P", "", "", "patient", 0⟩],
       [⟨some "d1", "201001011234", "D", "", "", "doctor", 0⟩]⟩
      { ssn := some "201001011234" } "201001011234"
      ⟨some "p1", "201001011234", "P", "", "", "patient", 0⟩
      rfl (by decide) (by decide) (by decide)).1

/-- C2: a callback request whose state parameter is absent or differs from
the oauth_state cookie (with the broker configuration available) is answered
400 invalid-state, with no token exchange performed, no account created or
updated, and no session-token or CSRF cookie set. -/
theorem callback_rejects_invalid_state (env : AuthEnv) (eff : CallbackEffects)
    (db : DB) (req : CallbackRequest) (hready : eff.configReady = true)
    (hbad : req.state = none ∨ req.state ≠ req.cookie_oauth_state) :
    handleCallback env eff db req =
      { status := 400, clearedOauthState := false, exchangePerformed := false,
        app_token_cookie := none, csrf_token_cookie := none, redirect := none,
        errorBody := some "Invalid state parameter", db := db } := by
  have hfail : stateCheckFails req.state req.cookie_oauth_state = true := by
    cases hs : req.state with
    | none => rfl
    | some s =>
      rcases hbad with h | h
      · rw [hs] at h
        exact Option.noConfusion h
      · rw [hs] at h
        have : req.cookie_oauth_state ≠ some s := fun hc => h (hc.symm)
        simp [stateCheckFails, this]
  simp [handleCallback, hready, hfail]

/-- Witness for callback_rejects_invalid_state: state "Y" against cookie
"X" is answered 400 with no side effects. -/
theorem callback_rejects_invalid_state_witness :
    handleCallback ⟨"k", 0, fun s => s⟩
        ⟨true, fun _ => .error "no", fun _ => none, "c", 0, "f1", "https://front"⟩
        ⟨[], []⟩
        { code := some "abc", state := some "Y", cookie_oauth_state := some "X" } =
      { status := 400, clearedOauthState := false, exchangePerformed := false,
        app_token_cookie := none, csrf_token_cookie := none, redirect := none,
        errorBody := some "Invalid state parameter", db := ⟨[], []⟩ } :=
  callback_rejects_invalid_state ⟨"k", 0, fun s => s⟩
    ⟨true, fun _ => .error "no", fun _ => none, "c", 0, "f1", "https://front"⟩
    ⟨[], []⟩
    { code := some "abc", state := some "Y", cookie_oauth_state := some "X" }
    rfl (Or.inr (by decide))

/-- C3 counterexample: on a state-mismatch callback (state "Y2" against
cookie "X2") the handler returns without clearing the oauth_state cookie,
so the cookie is not cleared on the failure path. -/
theorem callback_mismatch_leaves_state_cookie :
    (handleCallback ⟨"k2", 0, fun s => s⟩
        ⟨true, fun _ => .error "no", fun _ => none, "c", 0, "f1", "https://front"⟩
        ⟨[], []⟩
        { code := some "abc", state := some "Y2",
          cookie_oauth_state := some "X2" }).clearedOauthState = false := by
  decide

/-- C3 (amended): with the broker configuration available, the oauth_state
cookie is cleared exactly when the state-nonce check passes: every branch
past the check clears it, and the invalid-state rejection leaves it
uncleared. -/
theorem callback_clears_state_cookie_iff (env : AuthEnv) (eff : CallbackEffects)
    (db : DB) (req : CallbackRequest) (hready : eff.configReady = true) :
    (handleCallback env eff db req).clearedOauthState =
      !stateCheckFails req.state req.cookie_oauth_state := by
  cases hf : stateCheckFails req.state req.cookie_oauth_state with
  | true => simp [handleCallback, hready, hf]
  | false =>
    by_cases he : truthy req.error
    · simp [handleCallback, hready, hf, he]
    · by_cases hc : truthy req.code
      · cases hex : eff.codeExchange (req.code.getD "") with
        | error e => simp [handleCallback, hready, hf, he, hc, hex]
        | ok idTok =>
          cases hdec : eff.decode idTok with
          | none => simp [handleCallback, hready, hf, he, hc, hex, hdec]
          | some claims =>
            rcases hres : findOrCreateUser env eff.now eff.freshId db claims
              with ⟨res, db2, ops⟩
            cases res with
            | error e =>
              simp [handleCallback, hready, hf, he, hc, hex, hdec, hres]
            | ok r =>
              simp [handleCallback, hready, hf, he, hc, hex, hdec, hres]
      · simp [handleCallback, hready, hf, he, hc]

/-- Witness for callback_clears_state_cookie_iff: a matching state nonce
("X3" both in the request and the cookie) leads to the cookie being
cleared. -/
theorem callback_clears_state_cookie_iff_witness :
    (handleCallback ⟨"k3", 0, fun s => s⟩
        ⟨true, fun _ => .error "no", fun _ => none, "c", 0, "f1", "https://front"⟩
        ⟨[], []⟩
        { state := some "X3", cookie_oauth_state := some "X3" }).clearedOauthState =
      true :=
  callback_clears_state_cookie_iff ⟨"k3", 0, fun s => s⟩
    ⟨true, fun _ => .error "no", fun _ => none, "c", 0, "f1", "https://front"⟩
    ⟨[], []⟩
    { state := some "X3", cookie_oauth_state := some "X3" } rfl

end Vidacure
